import Mathlib

/-!
Verification development for the session coordinator and playback engine
of the zone server.  Definitions are shallow embeddings of the server source
(the coordinator variants in the repository); where the source of a
component is
absent from the repository snapshot (the playback engine and zone-state
modules), the definition is modelled from the specification and marked as
such in its doc comment.
-/

namespace Zone

/-- User identities are server-assigned strings. -/
abbrev UserId := String

/-- Media: identity is the src descriptor (part_001 compares media by src;
the mediaEquals helper of part_000 compares source descriptors). -/
structure Media where
  src : String
  title : String
  duration : Nat
deriving DecidableEq, Repr

/-- Provenance info attached to a queue item at queueMedia time. -/
structure QueueItemInfo where
  userId : UserId
  ip : String
  banger : Bool
deriving DecidableEq, Repr

/-- A queue item: monotonically allocated id, media, provenance. -/
structure QueueItem where
  itemId : Nat
  media : Media
  info : QueueItemInfo
deriving DecidableEq, Repr

/-- Server-side user record (fields relevant to the claims). -/
structure UserState where
  userId : UserId
  name : String
  avatar : String
  tags : List String
  position : Option (Int × Int × Int)
deriving DecidableEq, Repr

/-- Modelled from the spec: a default-attribute user as created by the
get-or-create getUser of the shared-state registry (zone module absent from the
snapshot). -/
def defaultUser (uid : UserId) : UserState :=
  { userId := uid, name := "", avatar := "", tags := [], position := none }

/-! ### Association-list maps

The coordinator keeps its tables in JS Maps; we embed them as association
lists with unique-key update semantics. -/

/-- Map lookup. -/
def mget {α : Type} : List (String × α) → String → Option α
  | [], _ => none
  | (k2, v) :: rest, k => if k2 = k then some v else mget rest k

/-- Map insert-or-replace. -/
def mset {α : Type} : List (String × α) → String → α → List (String × α)
  | [], k, v => [(k, v)]
  | (k2, v2) :: rest, k, v =>
      if k2 = k then (k, v) :: rest else (k2, v2) :: mset rest k v

/-- Map delete. -/
def mdel {α : Type} : List (String × α) → String → List (String × α)
  | [], _ => []
  | (k2, v2) :: rest, k =>
      if k2 = k then mdel rest k else (k2, v2) :: mdel rest k

/-! ### Vote-skip (coordinator voteSkip) -/

/-- Outcome of a voteSkip invocation. -/
inductive VoteOutcome
  | ignored
  | skipped (message : String)
  | tally (current : Nat) (target : Nat)
deriving DecidableEq, Repr

/-- The vote target computed by the coordinator:
Math.ceil(zone.users.size * opts.voteSkipThreshold).  The threshold (a
number in the source, 0.6 by default) is embedded as the exact fraction
tnum / tden, and the ceiling is computed by exact natural arithmetic; the
lemma voteTarget_eq_ceil below identifies it with the mathematical ceiling
of numUsers * (tnum / tden). -/
def voteTarget (numUsers tnum tden : Nat) : Nat :=
  (numUsers * tnum + tden - 1) / tden

/-- Does this outcome force a skip. -/
def VoteOutcome.isSkipped : VoteOutcome → Bool
  | VoteOutcome.skipped _ => true
  | _ => false

/-- Embedding of voteSkip from the coordinator (part_001 variant, identifying
the target by queue-item id; part_000 is identical with src in place of the
id): returns without voting if the item is not the currently playing one;
otherwise adds the user id of the voter to the skips set, force-skips if the
distinct-vote count has reached the target, else reports a running tally. -/
def voteSkip (currentItem : Option QueueItem) (itemId : Nat) (user : UserState)
    (numUsers tnum tden : Nat) (skips : Finset UserId) :
    Finset UserId × VoteOutcome :=
  match currentItem with
  | none => (skips, VoteOutcome.ignored)
  | some item =>
      if item.itemId = itemId then
        let skips2 := insert user.userId skips
        let current := skips2.card
        let target := voteTarget numUsers tnum tden
        if current ≥ target then
          (skips2, VoteOutcome.skipped ("voted to skip " ++ item.media.title))
        else
          (skips2, VoteOutcome.tally current target)
      else (skips, VoteOutcome.ignored)

/-! ### Playback engine

The source of the playback module is absent from the repository snapshot; the
engine is modelled from the spec (section 4.3), while checkQueue and the
event bindings of the coordinator are embedded from the server source. -/

/-- Lifecycle events emitted by the playback engine. -/
inductive PlayEvent
  | queuedEv (item : QueueItem)
  | playing (item : QueueItem)
  | stopped
  | unqueued (itemId : Nat)
deriving DecidableEq, Repr

/-- Playback state: the current item (none means idle), the pending queue,
and the elapsed-time clock of the current item. -/
structure PlaybackState where
  currentItem : Option QueueItem
  queue : List QueueItem
  time : Nat
deriving DecidableEq, Repr

/-- Modelled from the spec: Playback.skip discards the current item and, if
the queue is non-empty, promotes its head to playing (emitting a playing
event); otherwise transitions to idle and emits stopped.  The playback
module is absent from the snapshot. -/
def playbackSkip (p : PlaybackState) : PlaybackState × List PlayEvent :=
  match p.queue with
  | [] => ({ p with currentItem := none, time := 0 }, [PlayEvent.stopped])
  | next :: rest =>
      ({ currentItem := some next, queue := rest, time := 0 },
       [PlayEvent.playing next])

/-- Modelled from the spec: Playback.unqueue removes a specific pending
queue item by identity, is a no-op when the item is not pending, and never
touches the currently playing item.  The playback module is absent from the
snapshot. -/
def playbackUnqueue (p : PlaybackState) (item : QueueItem) :
    PlaybackState × List PlayEvent :=
  if p.queue.any (fun queued => queued.itemId == item.itemId) then
    ({ p with queue := p.queue.filter (fun queued => queued.itemId != item.itemId) },
     [PlayEvent.unqueued item.itemId])
  else (p, [])

/-- Modelled from the spec: Playback.queueMedia appends a new item with a
freshly allocated monotonic id, emits queued, and if idle immediately
promotes the new item to playing (after the startup delay, abstracted
away) and also emits playing.  The playback module is absent from the
snapshot. -/
def playbackQueueMedia (p : PlaybackState) (nextItemId : Nat) (media : Media)
    (info : QueueItemInfo) : PlaybackState × List PlayEvent :=
  let item : QueueItem := { itemId := nextItemId, media := media, info := info }
  match p.currentItem with
  | none =>
      ({ currentItem := some item, queue := p.queue, time := 0 },
       [PlayEvent.queuedEv item, PlayEvent.playing item])
  | some _ =>
      ({ p with queue := p.queue ++ [item] }, [PlayEvent.queuedEv item])

/-- Reaction of the skips set of the coordinator to playback events: the
only binding that touches the set is the play handler, which clears it. -/
def skipsAfterEvents (skips : Finset UserId) (events : List PlayEvent) :
    Finset UserId :=
  events.foldl
    (fun acc ev =>
      match ev with
      | PlayEvent.playing _ => (∅ : Finset UserId)
      | _ => acc)
    skips

/-- Coordinator-level skip: runs the skip of the playback engine and
applies the event bindings of the coordinator to the vote set. -/
def coordinatorSkip (p : PlaybackState) (skips : Finset UserId) :
    PlaybackState × Finset UserId × List PlayEvent :=
  let r := playbackSkip p
  (r.1, skipsAfterEvents skips r.2, r.2)

/-- One step of checkQueue: if the availability probe of the item reports
failed, unqueue it from the accumulated playback state and record the
status broadcast; otherwise leave the state alone. -/
def checkStep (failedProbe : Media → Bool)
    (acc : PlaybackState × List PlayEvent × List String) (item : QueueItem) :
    PlaybackState × List PlayEvent × List String :=
  if failedProbe item.media then
    let r := playbackUnqueue acc.1 item
    (r.1, acc.2.1 ++ r.2, acc.2.2 ++ ["failed to load " ++ item.media.title])
  else acc

/-- Embedding of checkQueue (part_001): for each item of the queue whose
availability probe reports failed, unqueue it and broadcast a status
message; playback of the current item is never touched. -/
def checkQueue (p : PlaybackState) (failedProbe : Media → Bool) :
    PlaybackState × List PlayEvent × List String :=
  p.queue.foldl (checkStep failedProbe) (p, [], [])

/-! ### Skip requests and queueing (coordinator) -/

/-- Outcome of a post /queue/skip request. -/
inductive SkipRequestOutcome
  | notPlaying
  | voted (outcome : VoteOutcome)
  | djSkipped (message : String)
  | refused (text : String)
deriving DecidableEq, Repr

/-- Is this skip-request outcome a registered vote. -/
def SkipRequestOutcome.isVoted : SkipRequestOutcome → Bool
  | SkipRequestOutcome.voted _ => true
  | _ => false

/-- Embedding of the post /queue/skip route (part_001): a request for an
item that is not currently playing is a not-found no-op; outside event mode
the request registers as a vote; during event mode a dj-tagged user
unilaterally skips while any other user is refused. -/
def handleSkipRequest (eventMode : Bool) (currentItem : Option QueueItem)
    (itemId : Nat) (user : UserState) (numUsers tnum tden : Nat)
    (skips : Finset UserId) : Finset UserId × SkipRequestOutcome :=
  match currentItem with
  | none => (skips, SkipRequestOutcome.notPlaying)
  | some item =>
      if item.itemId = itemId then
        if !eventMode then
          let r := voteSkip (some item) itemId user numUsers tnum tden skips
          (r.1, SkipRequestOutcome.voted r.2)
        else if user.tags.contains "dj" then
          (skips, SkipRequestOutcome.djSkipped
            (user.name ++ " skipped " ++ item.media.title))
        else
          (skips, SkipRequestOutcome.refused "cannot skip during event mode")
      else (skips, SkipRequestOutcome.notPlaying)

/-- Outcome of tryQueueMedia. -/
inductive QueueOutcome
  | eventModeReject
  | alreadyQueued (title : String)
  | limitReject (count : Nat)
  | queuedItem (item : QueueItem)
deriving DecidableEq, Repr

/-- Did tryQueueMedia actually enqueue. -/
def QueueOutcome.isQueued : QueueOutcome → Bool
  | QueueOutcome.queuedItem _ => true
  | _ => false

/-- Embedding of tryQueueMedia (part_001; part_000 differs only in how the
rejection is reported): during event mode non-dj users are rejected
outright; a media whose src matches a pending item is rejected as already
queued; a requester at or over the per-address queue limit (unless a dj in
event mode) is rejected; otherwise the item is appended with a fresh id. -/
def tryQueueMedia (perUserQueueLimit : Nat) (eventMode : Bool)
    (queue : List QueueItem) (nextItemId : Nat) (user : UserState)
    (userIp : String) (media : Media) (banger : Bool) :
    List QueueItem × QueueOutcome :=
  if eventMode && !(user.tags.contains "dj") then
    (queue, QueueOutcome.eventModeReject)
  else
    let existing := queue.find? (fun queued => queued.media.src == media.src)
    let count := (queue.filter (fun item => item.info.ip == userIp)).length
    let dj := eventMode && user.tags.contains "dj"
    match existing with
    | some queued => (queue, QueueOutcome.alreadyQueued queued.media.title)
    | none =>
        if !dj && decide (count ≥ perUserQueueLimit) then
          (queue, QueueOutcome.limitReject count)
        else
          let item : QueueItem :=
            { itemId := nextItemId, media := media,
              info := { userId := user.userId, ip := userIp, banger := banger } }
          (queue ++ [item], QueueOutcome.queuedItem item)

/-! ### Session coordinator state -/

/-- Outbound message kinds the coordinator emits during join/leave flows
(payloads abstracted to the identifying fields). -/
inductive OutMsg
  | leave (userId : UserId)
  | userJoined (userId : UserId)
  | assign (userId : UserId) (token : String)
  | reject (text : String)
  | coreState (userId : UserId)
  | otherState (userId : UserId)
deriving DecidableEq, Repr

/-- Mutable tables of the coordinator: the zone user registry, the
token-resume tables, the ip table, the per-user connection table (JS Map of
userId to Messaging), the per-user connection sets, the ban table, and the
user-id allocator. -/
structure ServerState where
  users : List (UserId × UserState)
  tokenToUser : List (String × UserId)
  userToToken : List (UserId × String)
  userToIp : List (UserId × String)
  connections : List (UserId × Nat)
  userToConnections : List (UserId × List Nat)
  bans : List String
  lastUserId : Nat
deriving DecidableEq, Repr

/-- Embedding of addUserToken: records the token in both directions. -/
def addUserToken (s : ServerState) (uid : UserId) (token : String) : ServerState :=
  { s with tokenToUser := mset s.tokenToUser token uid,
           userToToken := mset s.userToToken uid token }

/-- Embedding of revokeUserToken: drops the forward entry if the user holds
a token, then drops the entry of the user. -/
def revokeUserToken (s : ServerState) (uid : UserId) : ServerState :=
  let tokenToUser2 :=
    match mget s.userToToken uid with
    | some token => mdel s.tokenToUser token
    | none => s.tokenToUser
  { s with tokenToUser := tokenToUser2, userToToken := mdel s.userToToken uid }

/-- Embedding of addConnectionToUser: adds the channel to the connection
set of the user. -/
def addConnectionToUser (s : ServerState) (uid : UserId) (chan : Nat) : ServerState :=
  let conns := (mget s.userToConnections uid).getD []
  let conns2 := if chan ∈ conns then conns else conns ++ [chan]
  { s with userToConnections := mset s.userToConnections uid conns2 }

/-- Embedding of removeConnectionFromUser: deletes the channel from the
connection set of the user when the set exists. -/
def removeConnectionFromUser (s : ServerState) (uid : UserId) (chan : Nat) :
    ServerState :=
  match mget s.userToConnections uid with
  | none => s
  | some conns =>
      let conns2 := conns.filter (fun c => c ≠ chan)
      { s with userToConnections := mset s.userToConnections uid conns2 }

/-- Embedding of isUserConnectionless: true when the user has no connection
set or an empty one. -/
def isUserConnectionless (s : ServerState) (uid : UserId) : Bool :=
  match mget s.userToConnections uid with
  | none => true
  | some conns => conns.isEmpty

/-- Embedding of killUser: broadcasts leave only while the user is still in
the registry, then removes the user from the registry, the connection
tables, and revokes the resume token. -/
def killUser (s : ServerState) (uid : UserId) : ServerState × List OutMsg :=
  let msgs := if (mget s.users uid).isSome then [OutMsg.leave uid] else []
  let s2 := { s with users := mdel s.users uid,
                     connections := mdel s.connections uid,
                     userToConnections := mdel s.userToConnections uid }
  (revokeUserToken s2 uid, msgs)

/-- Result of a websocket close event at the coordinator. -/
inductive CloseResult
  | removedNow
  | graceTimerStarted
deriving DecidableEq, Repr

/-- Embedding of the websocket close handler (both variants): the closing
channel is removed from the connection set of the user; close codes 1000 and
1001 are a clean exit and kill the user immediately; any other code starts
the grace-period timer. -/
def handleSocketClose (s : ServerState) (uid : UserId) (chan : Nat) (code : Nat) :
    ServerState × List OutMsg × CloseResult :=
  let s2 := removeConnectionFromUser s uid chan
  if code = 1000 ∨ code = 1001 then
    let r := killUser s2 uid
    (r.1, r.2, CloseResult.removedNow)
  else
    (s2, [], CloseResult.graceTimerStarted)

/-- Embedding of the grace-period timer callback: kills the user only if it
is still connectionless when the timer fires. -/
def graceTimerFired (s : ServerState) (uid : UserId) : ServerState × List OutMsg :=
  if isUserConnectionless s uid then killUser s uid else (s, [])

/-! ### Join and resume (waitJoin, part_000) -/

/-- An inbound join message. -/
structure JoinMsg where
  name : String
  token : Option String
  password : Option String
deriving DecidableEq, Repr

/-- Result of a connection attempt plus first join message. -/
inductive JoinResult
  | bannedReject
  | passwordReject
  | joined (userId : UserId) (token : String) (resumed : Bool)
deriving DecidableEq, Repr

/-- The user id a presented resume token resolves to, if any. -/
def resolveToken (s : ServerState) (mtoken : Option String) : Option UserId :=
  match mtoken with
  | some t => mget s.tokenToUser t
  | none => none

/-- Embedding of waitJoin (part_000): a connection from a banned address is
rejected and closed before the join message is processed; otherwise the
join message is checked (a resolving resume token bypasses the join
password), a resuming socket is bound to the existing user of the token (whose
name is set from the message) with no join-style broadcast, and a
non-resuming one allocates a brand-new user id and broadcasts the new user
to everyone.  The fresh token and the channel id of the connection are passed in
as parameters (nanoid and the socket are external). -/
def waitJoin (joinPassword : Option String) (s : ServerState) (chan : Nat)
    (userIp : String) (msg : JoinMsg) (freshToken : String) :
    ServerState × List OutMsg × JoinResult :=
  if userIp ∈ s.bans then
    (s, [OutMsg.reject "you are banned"], JoinResult.bannedReject)
  else
    let resumeUser := resolveToken s msg.token
    let authorised := resumeUser.isSome || joinPassword.isNone ||
      (msg.password == joinPassword)
    if !authorised then
      (s, [OutMsg.reject "rejected, password required"], JoinResult.passwordReject)
    else
      match resumeUser, msg.token with
      | some uid, some t =>
          let user := (mget s.users uid).getD (defaultUser uid)
          let user2 := { user with name := msg.name }
          let s2 := { s with users := mset s.users uid user2 }
          let s3 := addUserToken s2 uid t
          let s4 := addConnectionToUser s3 uid chan
          let s5 := { s4 with userToIp := mset s4.userToIp uid userIp,
                              connections := mset s4.connections uid chan }
          (s5, [OutMsg.coreState uid, OutMsg.assign uid t, OutMsg.otherState uid],
           JoinResult.joined uid t true)
      | _, _ =>
          let newId := toString (s.lastUserId + 1)
          let user := { defaultUser newId with name := msg.name }
          let s2 := { s with lastUserId := s.lastUserId + 1,
                             users := mset s.users newId user }
          let s3 := addUserToken s2 newId freshToken
          let s4 := addConnectionToUser s3 newId chan
          let s5 := { s4 with userToIp := mset s4.userToIp newId userIp,
                              connections := mset s4.connections newId chan }
          (s5, [OutMsg.coreState newId, OutMsg.assign newId freshToken,
                OutMsg.userJoined newId, OutMsg.otherState newId],
           JoinResult.joined newId freshToken false)

/-! ### Echoes -/

/-- A stored echo: the author snapshot plus the (possibly truncated) text.
The text is modelled as a character sequence. -/
structure UserEcho where
  userId : UserId
  name : String
  avatar : String
  tags : List String
  text : List Char
deriving DecidableEq, Repr

/-- Echo storage keyed by the discretized position (an abstract key). -/
abbrev EchoMap := List (String × UserEcho)

/-- Outcome of an echo submission. -/
inductive EchoOutcome
  | refused
  | added (echo : UserEcho)
  | removed
deriving DecidableEq, Repr

/-- Whether the echo stored at a position was authored by an admin-tagged
user. -/
def echoAdminAt (echoes : EchoMap) (position : String) : Bool :=
  match mget echoes position with
  | some echo => echo.tags.contains "admin"
  | none => false

/-- Embedding of the echo submission handler (identical in both variants):
overwriting or clearing a position whose echo was authored by an
admin-tagged user requires the actor to hold the admin tag; otherwise a
non-empty text creates or overwrites the echo with the text truncated to
512 characters, and an empty text deletes the echo at the position. -/
def handleEcho (echoes : EchoMap) (user : UserState) (text : List Char)
    (position : String) : EchoMap × EchoOutcome :=
  let admin := echoAdminAt echoes position
  let valid := !admin || user.tags.contains "admin"
  if !valid then (echoes, EchoOutcome.refused)
  else if text.length > 0 then
    let echo : UserEcho := { userId := user.userId, name := user.name,
                             avatar := user.avatar, tags := user.tags,
                             text := text.take 512 }
    (mset echoes position echo, EchoOutcome.added echo)
  else
    (mdel echoes position, EchoOutcome.removed)

/-! ## Helper lemmas -/

theorem mget_mdel {α : Type} (m : List (String × α)) (k : String) :
    mget (mdel m k) k = none := by
  induction m with
  | nil => rfl
  | cons hd tl ih =>
      obtain ⟨k2, v2⟩ := hd
      by_cases h : k2 = k
      · simp [mdel, h, ih]
      · simp [mdel, mget, h, ih]

theorem mdel_mdel {α : Type} (m : List (String × α)) (k : String) :
    mdel (mdel m k) k = mdel m k := by
  induction m with
  | nil => rfl
  | cons hd tl ih =>
      obtain ⟨k2, v2⟩ := hd
      by_cases h : k2 = k
      · simp [mdel, h, ih]
      · simp [mdel, h, ih]

theorem mget_mset_self {α : Type} (m : List (String × α)) (k : String) (v : α) :
    mget (mset m k v) k = some v := by
  induction m with
  | nil => simp [mset, mget]
  | cons hd tl ih =>
      obtain ⟨k2, v2⟩ := hd
      by_cases h : k2 = k
      · simp [mset, h, mget]
      · simp [mset, mget, h, ih]

theorem mget_mset_ne {α : Type} (m : List (String × α)) (k k2 : String) (v : α)
    (h : k ≠ k2) : mget (mset m k v) k2 = mget m k2 := by
  induction m with
  | nil => simp [mset, mget, h]
  | cons hd tl ih =>
      obtain ⟨k3, v3⟩ := hd
      by_cases h3 : k3 = k
      · subst h3
        simp [mset, mget, h]
      · simp only [mset, if_neg h3]
        by_cases h4 : k3 = k2
        · simp [mget, h4]
        · simp [mget, h4, ih]

theorem voteTarget_le_iff (n a b m : Nat) (hb : 0 < b) :
    voteTarget n a b ≤ m ↔ n * a ≤ b * m := by
  unfold voteTarget
  rw [Nat.div_le_iff_le_mul_add_pred hb]
  omega

/-- The exact natural-arithmetic vote target agrees with the mathematical
ceiling of participant count times the rational threshold. -/
theorem voteTarget_eq_ceil (n a b : Nat) (hb : 0 < b) :
    (voteTarget n a b : ℤ) = Int.ceil ((n : ℚ) * ((a : ℚ) / (b : ℚ))) := by
  have hb2 : (0 : ℚ) < (b : ℚ) := by exact_mod_cast hb
  apply eq_of_forall_ge_iff
  intro k
  rw [Int.ceil_le, mul_div_assoc' ((n : ℚ)) ((a : ℚ)) ((b : ℚ)), div_le_iff₀ hb2]
  rcases k with m | m
  · rw [Int.ofNat_eq_coe]
    have hL : ((voteTarget n a b : ℤ) ≤ (m : ℤ)) ↔ voteTarget n a b ≤ m := by
      exact_mod_cast Iff.rfl
    have hR : ((n : ℚ) * (a : ℚ) ≤ ((m : ℤ) : ℚ) * (b : ℚ)) ↔ n * a ≤ b * m := by
      constructor
      · intro h
        have h2 : n * a ≤ m * b := by exact_mod_cast h
        rw [Nat.mul_comm b m]
        exact h2
      · intro h
        have h2 : n * a ≤ m * b := by rw [Nat.mul_comm m b]; exact h
        exact_mod_cast h2
    rw [hL, hR, voteTarget_le_iff n a b m hb]
  · have hneg : Int.negSucc m < 0 := Int.negSucc_lt_zero m
    constructor
    · intro h
      exfalso
      have h0 : (0 : ℤ) ≤ (voteTarget n a b : ℤ) := Int.natCast_nonneg _
      omega
    · intro h
      exfalso
      have h1 : ((Int.negSucc m : ℤ) : ℚ) * (b : ℚ) < 0 := by
        apply mul_neg_of_neg_of_pos _ hb2
        exact_mod_cast hneg
      have h2 : (0 : ℚ) ≤ (n : ℚ) * (a : ℚ) := by positivity
      linarith

/-- C1: with the current item matching the target of the vote, a forced skip
occurs exactly when the number of distinct voting user ids reaches the
target Math.ceil(participants * threshold); a re-vote by a user id already
in the vote set leaves the set (hence the tally) unchanged; while the tally
is below the target a running tally status is reported instead of a skip.
The second conjunct identifies the embedded integer target with the
mathematical ceiling of N times T. -/
theorem C1_vote_skip_reaches_ceil_target (item : QueueItem) (itemId : Nat)
    (user : UserState) (numUsers tnum tden : Nat) (skips : Finset UserId)
    (hmatch : item.itemId = itemId) (hden : 0 < tden) :
    ((voteSkip (some item) itemId user numUsers tnum tden skips).2.isSkipped = true ↔
        voteTarget numUsers tnum tden ≤ (insert user.userId skips).card)
    ∧ (voteTarget numUsers tnum tden : ℤ) =
        Int.ceil ((numUsers : ℚ) * ((tnum : ℚ) / (tden : ℚ)))
    ∧ (user.userId ∈ skips →
        (voteSkip (some item) itemId user numUsers tnum tden skips).1 = skips)
    ∧ ((insert user.userId skips).card < voteTarget numUsers tnum tden →
        (voteSkip (some item) itemId user numUsers tnum tden skips).2 =
          VoteOutcome.tally (insert user.userId skips).card
            (voteTarget numUsers tnum tden)) := by
  have hv : voteSkip (some item) itemId user numUsers tnum tden skips =
      if (insert user.userId skips).card ≥ voteTarget numUsers tnum tden then
        (insert user.userId skips,
         VoteOutcome.skipped ("voted to skip " ++ item.media.title))
      else
        (insert user.userId skips,
         VoteOutcome.tally (insert user.userId skips).card
           (voteTarget numUsers tnum tden)) := by
    simp [voteSkip, hmatch]
  refine ⟨?_, voteTarget_eq_ceil numUsers tnum tden hden, ?_, ?_⟩
  · rw [hv]
    by_cases hc : (insert user.userId skips).card ≥ voteTarget numUsers tnum tden
    · simp [hc, VoteOutcome.isSkipped]
    · simp [hc, VoteOutcome.isSkipped]
  · intro hmem
    rw [hv, Finset.insert_eq_self.mpr hmem]
    split
    · rfl
    · rfl
  · intro hlt
    rw [hv, if_neg (by omega)]

/-- C1 witness: with three participants and threshold 3/5 the target is 2;
a second distinct vote forces the skip, while the first vote only reports
a 1-of-2 tally, and re-voting leaves the set unchanged. -/
theorem C1_witness :
    (voteSkip
        (some { itemId := 7,
                media := { src := "youtube:a", title := "A", duration := 100 },
                info := { userId := "1", ip := "ip1", banger := false } })
        7 { userId := "2", name := "two", avatar := "", tags := [], position := none }
        3 3 5 {"1"}).2.isSkipped = true := by
  have h := C1_vote_skip_reaches_ceil_target
    { itemId := 7, media := { src := "youtube:a", title := "A", duration := 100 },
      info := { userId := "1", ip := "ip1", banger := false } }
    7 { userId := "2", name := "two", avatar := "", tags := [], position := none }
    3 3 5 {"1"} (by decide) (by decide)
  exact h.1.mpr (by decide)

/-- C4 counterexample: during event mode, a skip request for the currently
playing item from a user without the dj tag is refused outright and does
NOT register as a vote: the outcome is a refusal and the vote set is left
empty, contradicting the claim that such a request registers as a vote
toward the vote-skip tally. -/
theorem C4_counterexample_no_vote_in_event_mode :
    (handleSkipRequest true
        (some { itemId := 7,
                media := { src := "youtube:a", title := "A", duration := 100 },
                info := { userId := "1", ip := "ip1", banger := false } })
        7 { userId := "2", name := "two", avatar := "", tags := [], position := none }
        3 3 5 ∅).2 = SkipRequestOutcome.refused "cannot skip during event mode"
    ∧ (handleSkipRequest true
        (some { itemId := 7,
                media := { src := "youtube:a", title := "A", duration := 100 },
                info := { userId := "1", ip := "ip1", banger := false } })
        7 { userId := "2", name := "two", avatar := "", tags := [], position := none }
        3 3 5 ∅).1 = ∅
    ∧ (handleSkipRequest true
        (some { itemId := 7,
                media := { src := "youtube:a", title := "A", duration := 100 },
                info := { userId := "1", ip := "ip1", banger := false } })
        7 { userId := "2", name := "two", avatar := "", tags := [], position := none }
        3 3 5 ∅).2.isVoted = false := by
  refine ⟨by decide, by decide, by decide⟩

/-- C4 amended: while event mode is active, only dj-tagged users may
enqueue media or unilaterally skip; a skip request from a non-dj user
during event mode is refused with a status message and does not register a
vote (the vote set is unchanged); votes are registered only when event mode
is off. -/
theorem C4_event_mode_gating (item : QueueItem) (itemId : Nat)
    (user : UserState) (numUsers tnum tden : Nat) (skips : Finset UserId)
    (limit nextId : Nat) (queue : List QueueItem) (ip : String) (media : Media)
    (banger : Bool) (hmatch : item.itemId = itemId) :
    ("dj" ∉ user.tags →
        handleSkipRequest true (some item) itemId user numUsers tnum tden skips =
          (skips, SkipRequestOutcome.refused "cannot skip during event mode")
        ∧ tryQueueMedia limit true queue nextId user ip media banger =
            (queue, QueueOutcome.eventModeReject))
    ∧ ("dj" ∈ user.tags →
        (handleSkipRequest true (some item) itemId user numUsers tnum tden skips).2 =
          SkipRequestOutcome.djSkipped (user.name ++ " skipped " ++ item.media.title))
    ∧ (handleSkipRequest false (some item) itemId user numUsers tnum tden skips).2 =
        SkipRequestOutcome.voted
          (voteSkip (some item) itemId user numUsers tnum tden skips).2 := by
  refine ⟨?_, ?_, ?_⟩
  · intro hnodj
    constructor
    · simp [handleSkipRequest, hmatch, hnodj]
    · simp [tryQueueMedia, hnodj]
  · intro hdj
    simp [handleSkipRequest, hmatch, hdj]
  · simp [handleSkipRequest, hmatch]

/-- C4 witness: a concrete non-dj user is refused while a dj-tagged user
unilaterally skips during event mode, and the same request registers as a
vote when event mode is off. -/
theorem C4_witness :
    handleSkipRequest true
        (some { itemId := 7,
                media := { src := "youtube:a", title := "A", duration := 100 },
                info := { userId := "1", ip := "ip1", banger := false } })
        7 { userId := "3", name := "dj", avatar := "", tags := ["dj"], position := none }
        3 3 5 ∅ =
      (∅, SkipRequestOutcome.djSkipped "dj skipped A") := by
  have h := C4_event_mode_gating
    { itemId := 7, media := { src := "youtube:a", title := "A", duration := 100 },
      info := { userId := "1", ip := "ip1", banger := false } }
    7 { userId := "3", name := "dj", avatar := "", tags := ["dj"], position := none }
    3 3 5 ∅ 3 1 [] "ip" { src := "s", title := "t", duration := 1 } false (by decide)
  have h2 := h.2.1 (by decide)
  exact Prod.ext (by decide) h2

/-- C5: attempting to enqueue a media whose identity (src) already matches
a pending queue item is rejected -- the outcome is never a successful
enqueue -- and the queue is left unmodified by the attempt. -/
theorem C5_duplicate_enqueue_rejected (limit : Nat) (eventMode : Bool)
    (queue : List QueueItem) (nextId : Nat) (user : UserState) (ip : String)
    (media : Media) (banger : Bool)
    (hdup : ∃ q ∈ queue, q.media.src = media.src) :
    (tryQueueMedia limit eventMode queue nextId user ip media banger).1 = queue
    ∧ (tryQueueMedia limit eventMode queue nextId user ip media banger).2.isQueued
        = false := by
  unfold tryQueueMedia
  by_cases hev : (eventMode && !(user.tags.contains "dj")) = true
  · rw [if_pos hev]
    exact ⟨rfl, rfl⟩
  · rw [if_neg hev]
    have hfind : (queue.find? (fun queued => queued.media.src == media.src)).isSome := by
      rw [List.find?_isSome]
      obtain ⟨q, hq, hsrc⟩ := hdup
      exact ⟨q, hq, by simp [hsrc]⟩
    cases hcase : queue.find? (fun queued => queued.media.src == media.src) with
    | none => rw [hcase] at hfind; simp at hfind
    | some q => simp [hcase, QueueOutcome.isQueued]

/-- C5 witness: enqueuing a media with the same src as the single pending
item is rejected and the queue is unchanged. -/
theorem C5_witness :
    (tryQueueMedia 3 false
        [{ itemId := 1, media := { src := "youtube:a", title := "A", duration := 9 },
           info := { userId := "1", ip := "ip1", banger := false } }]
        2 { userId := "2", name := "two", avatar := "", tags := [], position := none }
        "ip2" { src := "youtube:a", title := "A again", duration := 9 } false).1 =
      [{ itemId := 1, media := { src := "youtube:a", title := "A", duration := 9 },
         info := { userId := "1", ip := "ip1", banger := false } }] := by
  have h := C5_duplicate_enqueue_rejected 3 false
    [{ itemId := 1, media := { src := "youtube:a", title := "A", duration := 9 },
       info := { userId := "1", ip := "ip1", banger := false } }]
    2 { userId := "2", name := "two", avatar := "", tags := [], position := none }
    "ip2" { src := "youtube:a", title := "A again", duration := 9 } false
    ⟨{ itemId := 1, media := { src := "youtube:a", title := "A", duration := 9 },
       info := { userId := "1", ip := "ip1", banger := false } }, by decide, by decide⟩
  exact h.1

theorem removeConnection_users (s : ServerState) (uid2 : UserId) (chan : Nat) :
    (removeConnectionFromUser s uid2 chan).users = s.users := by
  unfold removeConnectionFromUser
  cases mget s.userToConnections uid2 <;> rfl

theorem killUser_users (s : ServerState) (uid : UserId) :
    mget (killUser s uid).1.users uid = none := by
  unfold killUser revokeUserToken
  simp only
  cases mget s.userToToken uid <;> simp [mget_mdel]

theorem killUser_token (s : ServerState) (uid : UserId) :
    mget (killUser s uid).1.userToToken uid = none := by
  unfold killUser revokeUserToken
  simp only
  cases mget s.userToToken uid <;> simp [mget_mdel]

theorem killUser_connections (s : ServerState) (uid : UserId) :
    mget (killUser s uid).1.connections uid = none := by
  unfold killUser revokeUserToken
  simp only
  cases mget s.userToToken uid <;> simp [mget_mdel]

theorem killUser_msgs (s : ServerState) (uid : UserId) :
    (killUser s uid).2 =
      if (mget s.users uid).isSome then [OutMsg.leave uid] else [] := rfl

/-- C2: closing with code 1000 or 1001 removes the user immediately (a
leave broadcast exactly when the user was still registered, token revoked,
dropped from the registry and connection table); any other close code only
detaches the channel and starts the grace-period timer, and when the timer
fires the user is removed exactly when no channel has rebound (i.e. the
user is still connectionless). -/
theorem C2_close_codes (s : ServerState) (uid : UserId) (chan : Nat) (code : Nat) :
    ((code = 1000 ∨ code = 1001) →
        (handleSocketClose s uid chan code).2.2 = CloseResult.removedNow
        ∧ mget (handleSocketClose s uid chan code).1.users uid = none
        ∧ mget (handleSocketClose s uid chan code).1.userToToken uid = none
        ∧ mget (handleSocketClose s uid chan code).1.connections uid = none
        ∧ (handleSocketClose s uid chan code).2.1 =
            (if (mget s.users uid).isSome then [OutMsg.leave uid] else []))
    ∧ (code ≠ 1000 → code ≠ 1001 →
        (handleSocketClose s uid chan code).2.2 = CloseResult.graceTimerStarted
        ∧ (handleSocketClose s uid chan code).1 = removeConnectionFromUser s uid chan
        ∧ (handleSocketClose s uid chan code).2.1 = []
        ∧ (handleSocketClose s uid chan code).1.users = s.users)
    ∧ (isUserConnectionless s uid = false → graceTimerFired s uid = (s, []))
    ∧ (isUserConnectionless s uid = true →
        graceTimerFired s uid = killUser s uid
        ∧ mget (graceTimerFired s uid).1.users uid = none) := by
  refine ⟨?_, ?_, ?_, ?_⟩
  · intro hclean
    unfold handleSocketClose
    rw [if_pos hclean]
    refine ⟨rfl, killUser_users (removeConnectionFromUser s uid chan) uid,
      killUser_token (removeConnectionFromUser s uid chan) uid,
      killUser_connections (removeConnectionFromUser s uid chan) uid, ?_⟩
    show (killUser (removeConnectionFromUser s uid chan) uid).2 = _
    rw [killUser_msgs, removeConnection_users]
  · intro h1 h2
    unfold handleSocketClose
    rw [if_neg (by tauto)]
    exact ⟨rfl, rfl, rfl, removeConnection_users s uid chan⟩
  · intro hlive
    unfold graceTimerFired
    rw [hlive]
    rfl
  · intro hdead
    unfold graceTimerFired
    rw [hdead]
    exact ⟨rfl, killUser_users s uid⟩

/-- C2 witness: in a one-user state, close code 1000 removes the user with
a leave broadcast while code 1006 leaves the registry untouched; the timer
then removes the user only because no channel rebound. -/
theorem C2_witness :
    (handleSocketClose
      { users := [("1", { userId := "1", name := "n", avatar := "", tags := [], position := none })],
        tokenToUser := [("tok", "1")], userToToken := [("1", "tok")],
        userToIp := [("1", "ip")], connections := [("1", 0)],
        userToConnections := [("1", [0])], bans := [], lastUserId := 1 }
      "1" 0 1000).2.2 = CloseResult.removedNow
    ∧ (handleSocketClose
      { users := [("1", { userId := "1", name := "n", avatar := "", tags := [], position := none })],
        tokenToUser := [("tok", "1")], userToToken := [("1", "tok")],
        userToIp := [("1", "ip")], connections := [("1", 0)],
        userToConnections := [("1", [0])], bans := [], lastUserId := 1 }
      "1" 0 1006).2.2 = CloseResult.graceTimerStarted := by
  constructor
  · exact (C2_close_codes _ "1" 0 1000).1 (Or.inl rfl) |>.1
  · exact ((C2_close_codes _ "1" 0 1006).2.1 (by decide) (by decide)).1

/-- C10: killUser is idempotent and notification-idempotent -- running it a
second time on the same user emits no leave broadcast and leaves the
registry, connection tables, and token tables exactly as the first run left
them. -/
theorem C10_killUser_idempotent (s : ServerState) (uid : UserId) :
    (killUser (killUser s uid).1 uid).1 = (killUser s uid).1
    ∧ (killUser (killUser s uid).1 uid).2 = [] := by
  constructor
  · unfold killUser revokeUserToken
    simp only
    cases h : mget s.userToToken uid <;>
      simp [mget_mdel, mdel_mdel, h]
  · unfold killUser revokeUserToken
    simp only
    cases h : mget s.userToToken uid <;> simp [mget_mdel, h]

/-- C3: a join carrying a resume token that resolves to a live user binds
the new socket to that existing user -- the user id is preserved and the
stored record keeps its tags, position and avatar (only the name is set
from the join message), no join-style (userJoined) and no leave broadcast
is emitted -- while a join whose token does not resolve (and which passes
the password check) allocates the brand-new user id lastUserId+1 and
broadcasts the new user to everyone. -/
theorem C3_resume_binds_existing_user (joinPassword : Option String)
    (s : ServerState) (chan : Nat) (userIp : String) (msg : JoinMsg)
    (freshToken : String) (hnotban : userIp ∉ s.bans) :
    (∀ t uid u0, msg.token = some t → mget s.tokenToUser t = some uid →
        mget s.users uid = some u0 →
        (waitJoin joinPassword s chan userIp msg freshToken).2.2 =
          JoinResult.joined uid t true
        ∧ mget (waitJoin joinPassword s chan userIp msg freshToken).1.users uid =
            some { u0 with name := msg.name }
        ∧ (∀ v, OutMsg.userJoined v ∉
            (waitJoin joinPassword s chan userIp msg freshToken).2.1)
        ∧ (∀ v, OutMsg.leave v ∉
            (waitJoin joinPassword s chan userIp msg freshToken).2.1)
        ∧ mget (waitJoin joinPassword s chan userIp msg freshToken).1.connections
            uid = some chan)
    ∧ (resolveToken s msg.token = none →
        (joinPassword = none ∨ msg.password = joinPassword) →
        (waitJoin joinPassword s chan userIp msg freshToken).2.2 =
          JoinResult.joined (toString (s.lastUserId + 1)) freshToken false
        ∧ OutMsg.userJoined (toString (s.lastUserId + 1)) ∈
            (waitJoin joinPassword s chan userIp msg freshToken).2.1) := by
  constructor
  · intro t uid u0 ht htok hu
    have hwj : waitJoin joinPassword s chan userIp msg freshToken =
        (let user2 := { ((mget s.users uid).getD (defaultUser uid)) with
                        name := msg.name }
         let s2 := { s with users := mset s.users uid user2 }
         let s3 := addUserToken s2 uid t
         let s4 := addConnectionToUser s3 uid chan
         ({ s4 with userToIp := mset s4.userToIp uid userIp,
                    connections := mset s4.connections uid chan },
          [OutMsg.coreState uid, OutMsg.assign uid t, OutMsg.otherState uid],
          JoinResult.joined uid t true)) := by
      unfold waitJoin
      rw [if_neg hnotban]
      simp [resolveToken, ht, htok]
    rw [hwj]
    refine ⟨rfl, ?_, ?_, ?_, ?_⟩
    · simp only [addConnectionToUser, addUserToken]
      simp [hu, mget_mset_self]
    · intro v
      simp
    · intro v
      simp
    · simp [mget_mset_self]
  · intro hres hauth
    have hwj : waitJoin joinPassword s chan userIp msg freshToken =
        (let newId := toString (s.lastUserId + 1)
         let user := { defaultUser newId with name := msg.name }
         let s2 := { s with lastUserId := s.lastUserId + 1,
                            users := mset s.users newId user }
         let s3 := addUserToken s2 newId freshToken
         let s4 := addConnectionToUser s3 newId chan
         ({ s4 with userToIp := mset s4.userToIp newId userIp,
                    connections := mset s4.connections newId chan },
          [OutMsg.coreState newId, OutMsg.assign newId freshToken,
           OutMsg.userJoined newId, OutMsg.otherState newId],
          JoinResult.joined newId freshToken false)) := by
      unfold waitJoin
      rw [if_neg hnotban]
      cases hmt : msg.token with
      | none =>
          rw [hmt] at hres
          simp [resolveToken, hmt]
          intro hs
          rcases hauth with h | h
          · rw [h] at hs
            simp at hs
          · exact h
      | some t =>
          rw [hmt] at hres
          simp only [resolveToken] at hres
          simp [resolveToken, hmt, hres]
          intro hs
          rcases hauth with h | h
          · rw [h] at hs
            simp at hs
          · exact h
    rw [hwj]
    exact ⟨rfl, by simp⟩

/-- C3 witness: a concrete resume -- the token resolves to user 5, whose dj
tag and position survive the rebind, the result is a resumed join with the
same user id, and no join-style broadcast is sent. -/
theorem C3_witness :
    (waitJoin none
      { users := [("5", { userId := "5", name := "old", avatar := "av",
                          tags := ["dj"], position := some (1, 2, 3) })],
        tokenToUser := [("tok", "5")], userToToken := [("5", "tok")],
        userToIp := [("5", "ip")], connections := [("5", 0)],
        userToConnections := [("5", [0])], bans := [], lastUserId := 5 }
      1 "ip" { name := "new", token := some "tok", password := none }
      "fresh").2.2 = JoinResult.joined "5" "tok" true
    ∧ mget (waitJoin none
      { users := [("5", { userId := "5", name := "old", avatar := "av",
                          tags := ["dj"], position := some (1, 2, 3) })],
        tokenToUser := [("tok", "5")], userToToken := [("5", "tok")],
        userToIp := [("5", "ip")], connections := [("5", 0)],
        userToConnections := [("5", [0])], bans := [], lastUserId := 5 }
      1 "ip" { name := "new", token := some "tok", password := none }
      "fresh").1.users "5" =
        some { userId := "5", name := "new", avatar := "av",
               tags := ["dj"], position := some (1, 2, 3) } := by
  have h := (C3_resume_binds_existing_user none
    { users := [("5", { userId := "5", name := "old", avatar := "av",
                        tags := ["dj"], position := some (1, 2, 3) })],
      tokenToUser := [("tok", "5")], userToToken := [("5", "tok")],
      userToIp := [("5", "ip")], connections := [("5", 0)],
      userToConnections := [("5", [0])], bans := [], lastUserId := 5 }
    1 "ip" { name := "new", token := some "tok", password := none }
    "fresh" (by decide)).1 "tok" "5"
    { userId := "5", name := "old", avatar := "av",
      tags := ["dj"], position := some (1, 2, 3) }
    rfl (by decide) (by decide)
  exact ⟨h.1, h.2.1⟩

/-- C9: a connection from a banned network address is rejected at join time
-- the coordinator emits only the reject message, the result is a ban
rejection (never a join), and the server state is completely unchanged --
regardless of the join message, in particular even when it presents a
previously valid resume token. -/
theorem C9_banned_address_rejected (joinPassword : Option String)
    (s : ServerState) (chan : Nat) (userIp : String) (msg : JoinMsg)
    (freshToken : String) (hban : userIp ∈ s.bans) :
    waitJoin joinPassword s chan userIp msg freshToken =
      (s, [OutMsg.reject "you are banned"], JoinResult.bannedReject) := by
  unfold waitJoin
  rw [if_pos hban]

/-- C9 witness: a banned address presenting a token that is valid in the
token table is still rejected with no state change. -/
theorem C9_witness :
    waitJoin none
      { users := [("5", { userId := "5", name := "old", avatar := "av",
                          tags := [], position := none })],
        tokenToUser := [("tok", "5")], userToToken := [("5", "tok")],
        userToIp := [("5", "ip")], connections := [("5", 0)],
        userToConnections := [("5", [0])], bans := ["ip"], lastUserId := 5 }
      1 "ip" { name := "back", token := some "tok", password := none }
      "fresh" =
      ({ users := [("5", { userId := "5", name := "old", avatar := "av",
                           tags := [], position := none })],
         tokenToUser := [("tok", "5")], userToToken := [("5", "tok")],
         userToIp := [("5", "ip")], connections := [("5", 0)],
         userToConnections := [("5", [0])], bans := ["ip"], lastUserId := 5 },
       [OutMsg.reject "you are banned"], JoinResult.bannedReject) := by
  exact C9_banned_address_rejected none _ 1 "ip"
    { name := "back", token := some "tok", password := none } "fresh" (by decide)

/-- C8: an echo submission with empty text deletes any echo at the
discretized position; one with non-empty text creates or overwrites the
echo there with the text truncated to at most 512 characters; and when the
stored echo at the position was authored by an admin-tagged user, a
overwrite or deletion by a non-admin actor is refused with the echo map left
unchanged. -/
theorem C8_echo_submission (echoes : EchoMap) (user : UserState)
    (text : List Char) (position : String) :
    (echoAdminAt echoes position = true → "admin" ∉ user.tags →
        handleEcho echoes user text position = (echoes, EchoOutcome.refused))
    ∧ ((echoAdminAt echoes position = false ∨ "admin" ∈ user.tags) →
        (text = [] →
          handleEcho echoes user text position =
            (mdel echoes position, EchoOutcome.removed))
        ∧ (text ≠ [] →
          handleEcho echoes user text position =
            (mset echoes position
              { userId := user.userId, name := user.name, avatar := user.avatar,
                tags := user.tags, text := text.take 512 },
             EchoOutcome.added
              { userId := user.userId, name := user.name, avatar := user.avatar,
                tags := user.tags, text := text.take 512 })
          ∧ (text.take 512).length ≤ 512)) := by
  constructor
  · intro hadmin hnot
    simp [handleEcho, hadmin, hnot]
  · intro hok
    constructor
    · intro hempty
      subst hempty
      rcases hok with h | h
      · simp [handleEcho, h]
      · simp [handleEcho, h]
    · intro hne
      have hlen : 0 < text.length := List.length_pos.mpr hne
      refine ⟨?_, ?_⟩
      · rcases hok with h | h
        · simp [handleEcho, h, hlen]
        · simp [handleEcho, h, hlen]
      · rw [List.length_take]
        omega

/-- C8 witness: a non-admin overwrite of an admin echo is refused; a
non-empty submission by the admin author overwrites with truncation; an
empty submission by an admin deletes the echo. -/
theorem C8_witness :
    handleEcho [("3,4", { userId := "9", name := "adm", avatar := "",
                          tags := ["admin"], text := ['x'] })]
      { userId := "2", name := "two", avatar := "", tags := [], position := none }
      ['h', 'i'] "3,4" =
      ([("3,4", { userId := "9", name := "adm", avatar := "",
                  tags := ["admin"], text := ['x'] })], EchoOutcome.refused)
    ∧ handleEcho [] { userId := "2", name := "two", avatar := "",
                      tags := [], position := none } ['h', 'i'] "3,4" =
        ([("3,4", { userId := "2", name := "two", avatar := "",
                    tags := [], text := ['h', 'i'] })],
         EchoOutcome.added { userId := "2", name := "two", avatar := "",
                             tags := [], text := ['h', 'i'] }) := by
  constructor
  · exact (C8_echo_submission _ _ ['h', 'i'] "3,4").1 (by decide) (by decide)
  · have h := ((C8_echo_submission []
      { userId := "2", name := "two", avatar := "", tags := [], position := none }
      ['h', 'i'] "3,4").2 (Or.inl (by decide))).2 (by decide)
    exact h.1

/-- C7 counterexample: the vote set survives a skip into idle.  With one
vote recorded for the current item and an empty queue, skip() transitions
to idle (the current item becomes none and only a stopped event fires),
yet the vote set still holds the recorded vote -- it is not empty,
contradicting the claim that the vote set is cleared on every
playing-item transition including a skip with an empty queue. -/
theorem C7_counterexample_votes_survive_idle_skip :
    (coordinatorSkip
        ⟨some ⟨7, ⟨"youtube:a", "A", 100⟩, ⟨"1", "ip1", false⟩⟩, [], 5⟩
        {"1"}).1.currentItem = none
    ∧ (coordinatorSkip
        ⟨some ⟨7, ⟨"youtube:a", "A", 100⟩, ⟨"1", "ip1", false⟩⟩, [], 5⟩
        {"1"}).2.2 = [PlayEvent.stopped]
    ∧ (coordinatorSkip
        ⟨some ⟨7, ⟨"youtube:a", "A", 100⟩, ⟨"1", "ip1", false⟩⟩, [], 5⟩
        {"1"}).2.1 = {"1"}
    ∧ ({"1"} : Finset UserId) ≠ (∅ : Finset UserId) := by
  refine ⟨by decide, by decide, by decide, by decide⟩

/-- C7 amended: the coordinator clears the vote set exactly on play events
(the only binding clears it on each play event), so the set
is cleared on every transition that promotes a new item -- including a
forced skip with a non-empty queue -- but a skip with an empty queue
(transition to idle) emits only stopped and leaves the vote set untouched;
after such a skip the set is empty only if it was already empty. -/
theorem C7_vote_set_cleared_on_play (p : PlaybackState) (skips : Finset UserId)
    (item : QueueItem) :
    (p.queue ≠ [] → (coordinatorSkip p skips).2.1 = (∅ : Finset UserId))
    ∧ (p.queue = [] →
        (coordinatorSkip p skips).2.1 = skips
        ∧ (coordinatorSkip p skips).1.currentItem = none
        ∧ (coordinatorSkip p skips).2.2 = [PlayEvent.stopped])
    ∧ skipsAfterEvents skips [PlayEvent.playing item] = (∅ : Finset UserId) := by
  refine ⟨?_, ?_, rfl⟩
  · intro hne
    unfold coordinatorSkip playbackSkip
    cases hq : p.queue with
    | nil => exact absurd hq hne
    | cons next rest => rfl
  · intro hq
    unfold coordinatorSkip playbackSkip
    rw [hq]
    exact ⟨rfl, rfl, rfl⟩

/-- C7 witness: with a non-empty queue the skip promotes the next item and
clears the vote set; with an empty queue the vote set is returned
untouched. -/
theorem C7_witness :
    (coordinatorSkip
        ⟨some ⟨7, ⟨"youtube:a", "A", 100⟩, ⟨"1", "ip1", false⟩⟩,
         [⟨8, ⟨"youtube:b", "B", 50⟩, ⟨"2", "ip2", false⟩⟩], 5⟩
        {"1"}).2.1 = (∅ : Finset UserId) := by
  have h := C7_vote_set_cleared_on_play
    ⟨some ⟨7, ⟨"youtube:a", "A", 100⟩, ⟨"1", "ip1", false⟩⟩,
     [⟨8, ⟨"youtube:b", "B", 50⟩, ⟨"2", "ip2", false⟩⟩], 5⟩
    {"1"} ⟨8, ⟨"youtube:b", "B", 50⟩, ⟨"2", "ip2", false⟩⟩
  exact h.1 (by decide)

theorem playbackUnqueue_current (p : PlaybackState) (item : QueueItem) :
    (playbackUnqueue p item).1.currentItem = p.currentItem
    ∧ (playbackUnqueue p item).1.time = p.time := by
  unfold playbackUnqueue
  split
  · exact ⟨rfl, rfl⟩
  · exact ⟨rfl, rfl⟩

theorem checkStep_current (f : Media → Bool)
    (acc : PlaybackState × List PlayEvent × List String) (item : QueueItem) :
    (checkStep f acc item).1.currentItem = acc.1.currentItem
    ∧ (checkStep f acc item).1.time = acc.1.time := by
  unfold checkStep
  split
  · exact playbackUnqueue_current acc.1 item
  · exact ⟨rfl, rfl⟩

theorem foldl_checkStep_current (f : Media → Bool) (l : List QueueItem) :
    ∀ acc : PlaybackState × List PlayEvent × List String,
      (l.foldl (checkStep f) acc).1.currentItem = acc.1.currentItem
      ∧ (l.foldl (checkStep f) acc).1.time = acc.1.time := by
  induction l with
  | nil => intro acc; exact ⟨rfl, rfl⟩
  | cons hd tl ih =>
      intro acc
      have h1 := ih (checkStep f acc hd)
      have h2 := checkStep_current f acc hd
      simp only [List.foldl_cons]
      exact ⟨h1.1.trans h2.1, h1.2.trans h2.2⟩

theorem checkStep_queue_sub (f : Media → Bool)
    (acc : PlaybackState × List PlayEvent × List String) (item : QueueItem) :
    ∀ q ∈ (checkStep f acc item).1.queue, q ∈ acc.1.queue := by
  unfold checkStep playbackUnqueue
  split
  · split
    · intro q hq
      exact List.mem_of_mem_filter hq
    · intro q hq
      exact hq
  · intro q hq
    exact hq

theorem checkStep_removes (f : Media → Bool)
    (acc : PlaybackState × List PlayEvent × List String) (b : QueueItem)
    (hfail : f b.media = true) :
    ∀ q ∈ (checkStep f acc b).1.queue, q.itemId ≠ b.itemId := by
  unfold checkStep playbackUnqueue
  rw [hfail]
  simp only [if_pos]
  split
  · intro q hq
    have := List.of_mem_filter hq
    simpa using this
  · rename_i hany
    intro q hq hid
    apply hany
    rw [List.any_eq_true]
    exact ⟨q, hq, by simp [hid]⟩

theorem foldl_checkStep_notmem (f : Media → Bool) (l : List QueueItem) :
    ∀ (acc : PlaybackState × List PlayEvent × List String) (x : Nat),
      (∀ q ∈ acc.1.queue, q.itemId ≠ x) →
      ∀ q ∈ (l.foldl (checkStep f) acc).1.queue, q.itemId ≠ x := by
  induction l with
  | nil => intro acc x h; exact h
  | cons hd tl ih =>
      intro acc x h
      simp only [List.foldl_cons]
      apply ih
      intro q hq
      exact h q (checkStep_queue_sub f acc hd q hq)

theorem foldl_checkStep_removes_failed (f : Media → Bool) (l : List QueueItem) :
    ∀ (acc : PlaybackState × List PlayEvent × List String) (b : QueueItem),
      b ∈ l → f b.media = true →
      ∀ q ∈ (l.foldl (checkStep f) acc).1.queue, q.itemId ≠ b.itemId := by
  induction l with
  | nil =>
      intro acc b hb
      cases hb
  | cons hd tl ih =>
      intro acc b hb hfail
      rcases List.mem_cons.mp hb with heq | htl
      · subst heq
        simp only [List.foldl_cons]
        exact foldl_checkStep_notmem f tl (checkStep f acc b) b.itemId
          (checkStep_removes f acc b hfail)
      · simp only [List.foldl_cons]
        exact ih (checkStep f acc hd) b htl hfail

theorem playbackUnqueue_events (p : PlaybackState) (item : QueueItem) :
    ∀ ev ∈ (playbackUnqueue p item).2, ev = PlayEvent.unqueued item.itemId := by
  unfold playbackUnqueue
  split
  · intro ev hev
    simpa using hev
  · intro ev hev
    cases hev

theorem foldl_checkStep_events (f : Media → Bool) (l : List QueueItem) :
    ∀ acc : PlaybackState × List PlayEvent × List String,
      (∀ ev ∈ acc.2.1, ∃ i, ev = PlayEvent.unqueued i) →
      ∀ ev ∈ (l.foldl (checkStep f) acc).2.1, ∃ i, ev = PlayEvent.unqueued i := by
  induction l with
  | nil => intro acc h; exact h
  | cons hd tl ih =>
      intro acc h
      simp only [List.foldl_cons]
      apply ih
      unfold checkStep
      split
      · intro ev hev
        rcases List.mem_append.mp hev with hl | hr
        · exact h ev hl
        · exact ⟨hd.itemId, playbackUnqueue_events acc.1 hd ev hr⟩
      · exact h

/-- C6: when the periodic health check finds pending queue items whose
availability probe reports failed, each such item is removed from the
queue while the currently playing item and its clock are left untouched,
and the health check emits only unqueued events -- never a playing or
stopped event, so the current item is never skipped by a pending-item
failure. -/
theorem C6_health_check_drops_pending_failure (p : PlaybackState)
    (failedProbe : Media → Bool) (b : QueueItem)
    (hb : b ∈ p.queue) (hfail : failedProbe b.media = true) :
    (checkQueue p failedProbe).1.currentItem = p.currentItem
    ∧ (checkQueue p failedProbe).1.time = p.time
    ∧ (∀ q ∈ (checkQueue p failedProbe).1.queue, q.itemId ≠ b.itemId)
    ∧ (∀ ev ∈ (checkQueue p failedProbe).2.1, ∃ i, ev = PlayEvent.unqueued i) := by
  unfold checkQueue
  refine ⟨(foldl_checkStep_current failedProbe p.queue (p, [], [])).1,
          (foldl_checkStep_current failedProbe p.queue (p, [], [])).2,
          foldl_checkStep_removes_failed failedProbe p.queue (p, [], []) b hb hfail,
          foldl_checkStep_events failedProbe p.queue (p, [], []) ?_⟩
  intro ev hev
  cases hev

/-- C6 witness: the spec scenario -- current item A, queue holding only B,
and the probe for B failing -- removes B, keeps A playing with its clock, and
emits only the unqueued event for B. -/
theorem C6_witness :
    (checkQueue
        ⟨some ⟨7, ⟨"youtube:a", "A", 100⟩, ⟨"1", "ip1", false⟩⟩,
         [⟨8, ⟨"youtube:b", "B", 50⟩, ⟨"2", "ip2", false⟩⟩], 5⟩
        (fun m => m.src == "youtube:b")).1.currentItem =
      some ⟨7, ⟨"youtube:a", "A", 100⟩, ⟨"1", "ip1", false⟩⟩
    ∧ (checkQueue
        ⟨some ⟨7, ⟨"youtube:a", "A", 100⟩, ⟨"1", "ip1", false⟩⟩,
         [⟨8, ⟨"youtube:b", "B", 50⟩, ⟨"2", "ip2", false⟩⟩], 5⟩
        (fun m => m.src == "youtube:b")).1.time = 5
    ∧ (∀ q ∈ (checkQueue
        ⟨some ⟨7, ⟨"youtube:a", "A", 100⟩, ⟨"1", "ip1", false⟩⟩,
         [⟨8, ⟨"youtube:b", "B", 50⟩, ⟨"2", "ip2", false⟩⟩], 5⟩
        (fun m => m.src == "youtube:b")).1.queue, q.itemId ≠ 8) := by
  have h := C6_health_check_drops_pending_failure
    ⟨some ⟨7, ⟨"youtube:a", "A", 100⟩, ⟨"1", "ip1", false⟩⟩,
     [⟨8, ⟨"youtube:b", "B", 50⟩, ⟨"2", "ip2", false⟩⟩], 5⟩
    (fun m => m.src == "youtube:b")
    ⟨8, ⟨"youtube:b", "B", 50⟩, ⟨"2", "ip2", false⟩⟩
    (by decide) (by decide)
  exact ⟨h.1, h.2.1, h.2.2.1⟩

end Zone
